import Mathlib

/-!
Verification development for the Image-processing-methods repository.

The repository contains three C++ variants of a local illumination model:

* `brightness-calculation/` : a per-light irradiance evaluator
  (`calculateIllumination`) and a multi-light Blinn-Phong brightness
  evaluator (`calculateBrightness`);
* `illuminance-calculation/` : a simpler single-point illumination formula
  (`calculateIllumination` over `std::array<double,3>` intensities);
* `scene-rendering/` : a recursive ray-tracing shader (`shade`) on top of an
  external ray-intersection service (Intel Embree).

C++ `double` arithmetic is embedded as real-number (`ℝ`) arithmetic; the
IEEE NaN produced by the one unguarded division in the sources
(`illuminance-calculation`'s `Vector3D::normalized` on a zero-length vector)
is modelled as `Option.none`.
-/

namespace ImageProc

/-- 3D vector with real components.  All three variants define an identical
`Vector3D` value type (`x`, `y`, `z` doubles) with the same addition,
subtraction, scalar multiplication, dot product and cross product; the type
is shared here.  `scene-rendering/main.cpp` additionally has unary minus. -/
@[ext]
structure Vector3D where
  x : ℝ
  y : ℝ
  z : ℝ

instance : Add Vector3D :=
  ⟨fun a b => ⟨a.x + b.x, a.y + b.y, a.z + b.z⟩⟩

instance : Sub Vector3D :=
  ⟨fun a b => ⟨a.x - b.x, a.y - b.y, a.z - b.z⟩⟩

instance : Neg Vector3D :=
  ⟨fun a => ⟨-a.x, -a.y, -a.z⟩⟩

instance : HMul Vector3D ℝ Vector3D :=
  ⟨fun a c => ⟨a.x * c, a.y * c, a.z * c⟩⟩

/-- Dot product, `Vector3D::dot` (identical in all three variants). -/
def Vector3D.dot (a b : Vector3D) : ℝ :=
  a.x * b.x + a.y * b.y + a.z * b.z

/-- Cross product, `Vector3D::cross` (identical in all three variants). -/
def Vector3D.cross (a b : Vector3D) : Vector3D :=
  ⟨a.y * b.z - a.z * b.y, a.z * b.x - a.x * b.z, a.x * b.y - a.y * b.x⟩

/-- Euclidean norm, `Vector3D::norm`.  `brightness-calculation` uses
`std::hypot(x,y,z)` and the other two variants use
`std::sqrt(x*x + y*y + z*z)`; over the reals both equal
`Real.sqrt (x*x + y*y + z*z)`. -/
noncomputable def Vector3D.norm (v : Vector3D) : ℝ :=
  Real.sqrt (v.x * v.x + v.y * v.y + v.z * v.z)

/-- `Vector3D::normalized` of `brightness-calculation/vector3d.cpp`
(lines 44-47): returns `v * (1/n)` when the norm `n` is nonzero and the
original vector otherwise. -/
noncomputable def Vector3D.normalizedB (v : Vector3D) : Vector3D :=
  if v.norm ≠ 0 then v * (1 / v.norm) else v

/-- `Vector3D::normalized` of `scene-rendering/main.cpp` (lines 46-49):
returns `v * (1.0/n)` when `n > 0` and the original vector otherwise. -/
noncomputable def Vector3D.normalizedS (v : Vector3D) : Vector3D :=
  if 0 < v.norm then v * (1 / v.norm) else v

/-- `Vector3D::normalized` of `illuminance-calculation/vector3d.cpp`
(lines 38-42): divides each component by the norm with no zero-length
guard.  On a zero-length vector the C++ division `0.0/0.0` yields NaN;
that fallible case is modelled as `none`. -/
noncomputable def Vector3D.normalizedI (v : Vector3D) : Option Vector3D :=
  if v.norm = 0 then none else some ⟨v.x / v.norm, v.y / v.norm, v.z / v.norm⟩

/-- RGB color with real components, `Color` of `brightness-calculation`
(also the `Color` class of `scene-rendering/main.cpp`): components are
unclamped doubles with componentwise addition, scalar multiplication and
componentwise (modulation) multiplication. -/
@[ext]
structure Color where
  r : ℝ
  g : ℝ
  b : ℝ

instance : Add Color :=
  ⟨fun a c => ⟨a.r + c.r, a.g + c.g, a.b + c.b⟩⟩

instance : HMul Color ℝ Color :=
  ⟨fun a s => ⟨a.r * s, a.g * s, a.b * s⟩⟩

instance : HMul Color Color Color :=
  ⟨fun a c => ⟨a.r * c.r, a.g * c.g, a.b * c.b⟩⟩

/-- `Light` of `brightness-calculation/light.h`: a position, a direction
vector and an RGB intensity. -/
structure Light where
  position : Vector3D
  direction : Vector3D
  intensity : Color

/-- `Material` of `brightness-calculation/material.h`: base color, diffuse
and specular coefficients and a specular exponent. -/
structure Material where
  color : Color
  diffuse : ℝ
  specular : ℝ
  exponent : ℝ

/-- `isSameSide` of `brightness-calculation/illumination.cpp` (lines 9-17):
the point and the reference are on the same side of the plane through
`planePoint` with the given normal iff the product of the two signed dot
products is strictly positive. -/
def isSameSide (point planePoint normal reference : Vector3D) : Prop :=
  ((point - planePoint).dot normal) * ((reference - planePoint).dot normal) > 0

/-- The world point recovered from the triangle and the local coordinates,
`brightness-calculation/illumination.cpp` lines 27-29:
`PT = P0 + normalize(P1-P0)*x + normalize(P2-P0)*y`. -/
noncomputable def PTof (P0 P1 P2 : Vector3D) (x y : ℝ) : Vector3D :=
  P0 + (P1 - P0).normalizedB * x + (P2 - P0).normalizedB * y

/-- The face normal of `brightness-calculation/illumination.cpp` line 32:
`N = normalize((P2-P0) × (P1-P0))`. -/
noncomputable def Nof (P0 P1 P2 : Vector3D) : Vector3D :=
  ((P2 - P0).cross (P1 - P0)).normalizedB

open Classical in
/-- `calculateIllumination` of `brightness-calculation/illumination.cpp`
(lines 23-52).  Returns black when the light's position and the view
reference fail the same-side test; otherwise applies the inverse-square
law with the two clamped cosine factors, where `s_vec = PT - light.position`. -/
noncomputable def calculateIllumination (light : Light) (P0 P1 P2 : Vector3D)
    (x y : ℝ) (viewDir : Vector3D) : Color :=
  if isSameSide light.position (PTof P0 P1 P2 x y) (Nof P0 P1 P2) viewDir then
    let s_vec := PTof P0 P1 P2 x y - light.position
    let R2 := s_vec.norm * s_vec.norm
    let s_normalized := s_vec.normalizedB
    let lightDirNormalized := light.direction.normalizedB
    let cos_alpha := max 0 (s_normalized.dot (Nof P0 P1 P2))
    let cos_theta := max 0 (s_normalized.dot lightDirNormalized)
    light.intensity * (cos_theta * cos_alpha / R2)
  else
    ⟨0, 0, 0⟩

open Classical in
/-- `calculateBrightness` of `brightness-calculation/illumination.cpp`
(lines 58-100): per-light irradiance from `calculateIllumination` combined
with the Blinn-Phong material response, accumulated over all lights; the
face normal is negated first when it points away from `viewDir`. -/
noncomputable def calculateBrightness (lights : List Light) (P0 P1 P2 : Vector3D)
    (x y : ℝ) (viewDir : Vector3D) (material : Material) : Color :=
  let PT := PTof P0 P1 P2 x y
  let N0 := Nof P0 P1 P2
  let N := if viewDir.dot N0 < 0 then N0 * (-1 : ℝ) else N0
  lights.foldl (fun totalBrightness light =>
    let E := calculateIllumination light P0 P1 P2 x y viewDir
    let s := (light.position - PT).normalizedB
    let h := (viewDir + s).normalizedB
    let diffuse := material.diffuse
    let specular := material.specular * (max 0 (h.dot N)) ^ material.exponent
    totalBrightness + E * material.color * (diffuse + specular) * (1 / Real.pi))
    ⟨0, 0, 0⟩

/-- `calculateBrightness` with the viewer-oriented normal abstracted as the
parameter `N`: the loop body of `brightness-calculation/illumination.cpp`
lines 78-97 verbatim, used to state which parts of the result depend on
the normal flip. -/
noncomputable def brightnessGivenN (lights : List Light) (P0 P1 P2 : Vector3D)
    (x y : ℝ) (viewDir : Vector3D) (material : Material) (N : Vector3D) : Color :=
  let PT := PTof P0 P1 P2 x y
  lights.foldl (fun totalBrightness light =>
    let E := calculateIllumination light P0 P1 P2 x y viewDir
    let s := (light.position - PT).normalizedB
    let h := (viewDir + s).normalizedB
    let diffuse := material.diffuse
    let specular := material.specular * (max 0 (h.dot N)) ^ material.exponent
    totalBrightness + E * material.color * (diffuse + specular) * (1 / Real.pi))
    ⟨0, 0, 0⟩

open Classical in
/-- `calculateIllumination` of `illuminance-calculation/illumination.cpp`
(lines 11-55): the simpler single-point illumination formula over an
intensity triple `I0`, light axis `O` and light position `PL`.  Its
`cos_alpha` takes an absolute value and its `cos_theta` is unclamped.
The `std::array<double,3>` result is modelled as a `Color`; the unguarded
divisions by a zero norm (NaN in the source) are modelled as `none`. -/
noncomputable def calculateIlluminationArr (I0 : Color) (O PL P0 P1 P2 : Vector3D)
    (x y : ℝ) : Option Color := do
  let edge1 ← (P1 - P0).normalizedI
  let edge2 ← (P2 - P0).normalizedI
  let PT := P0 + edge1 * x + edge2 * y
  let N ← ((P2 - P0).cross (P1 - P0)).normalizedI
  let s := PT - PL
  if s.norm = 0 then none
  else
    let R2 := s.norm * s.norm
    let cos_alpha := |s.dot N / s.norm|
    let cos_theta := s.dot O / s.norm
    some ⟨I0.r * cos_theta * cos_alpha / R2,
          I0.g * cos_theta * cos_alpha / R2,
          I0.b * cos_theta * cos_alpha / R2⟩

/-- `Material` of `scene-rendering/main.cpp` (lines 72-79): base color,
diffuse/specular coefficients, specular exponent, specular highlight color
and a reflection coefficient. -/
structure SceneMaterial where
  color : Color
  diffuse : ℝ
  specular : ℝ
  exponent : ℝ
  specular_color : Color
  reflectivity : ℝ

/-- The two light variants of `scene-rendering/main.cpp`: `PointLight`
(stored position, lines 103-135) and `DirectionalLight` (stored direction,
normalized by its constructor, lines 141-173); each owns an intensity. -/
inductive SceneLight where
  | point (position : Vector3D) (intensity : Color)
  | directional (direction : Vector3D) (intensity : Color)

/-- The `intensity` field shared by both light classes. -/
def SceneLight.intensity : SceneLight → Color
  | .point _ i => i
  | .directional _ i => i

/-- `getDirection` of the two light classes: unit direction from the point
toward the light (`(position - point).normalized()` for `PointLight`,
the constant `-direction.normalized()` for `DirectionalLight`). -/
noncomputable def SceneLight.getDirection : SceneLight → Vector3D → Vector3D
  | .point pos _, p => (pos - p).normalizedS
  | .directional d _, _ => (-d).normalizedS

/-- `getAttenuation` of the two light classes
(`scene-rendering/main.cpp` lines 132-134 and 170-172): both return `1.0`
for every point. -/
def SceneLight.getAttenuation : SceneLight → Vector3D → ℝ
  | .point _ _, _ => 1
  | .directional _ _, _ => 1

/-- The data `shade` reads from an Embree `RTCRayHit` and the scene: the
hit point (`org + tfar * dir`), the reported geometric normal `Ng`, and
the material attached to the intersected geometry as user data. -/
structure Hit where
  point : Vector3D
  ng : Vector3D
  material : SceneMaterial

/-- The external Embree ray-intersection service, abstracted: `occluded`
answers the per-light shadow probe (`rtcOccluded1` with the ray interval
built in `PointLight::isOccluded` / `DirectionalLight::isOccluded`), and
`intersect` answers `rtcIntersect1` for a ray given by origin and
direction, `none` standing for `RTC_INVALID_GEOMETRY_ID`. -/
structure IntersectService where
  occluded : Vector3D → SceneLight → Bool
  intersect : Vector3D → Vector3D → Option Hit

/-- `MAX_DEPTH` of `scene-rendering/main.cpp` line 225. -/
def MAX_DEPTH : ℕ := 50

open Classical in
/-- One light's local (Phong) contribution, the loop body of `shade`
(`scene-rendering/main.cpp` lines 243-249): diffuse plus specular term,
modulated by the light's intensity and per-point attenuation factor. -/
noncomputable def shadeLightContribution (mat : SceneMaterial)
    (normal viewDir point : Vector3D) (light : SceneLight) : Color :=
  let L := light.getDirection point
  let H := (viewDir + L).normalizedS
  let NdotL := max 0 (normal.dot L)
  let HdotN := max 0 (H.dot normal)
  let diffuse := mat.color * mat.diffuse * NdotL
  let specular := mat.specular_color * mat.specular * HdotN ^ mat.exponent
  (diffuse + specular) * light.intensity * light.getAttenuation point

/-- The local shading sum of `shade` (`scene-rendering/main.cpp`
lines 240-252): the contributions of all lights whose shadow probe
reports no occluder, accumulated from black. -/
noncomputable def localShade (occ : Vector3D → SceneLight → Bool)
    (lights : List SceneLight) (mat : SceneMaterial)
    (normal viewDir point : Vector3D) : Color :=
  lights.foldl (fun totalColor light =>
    if occ point light then totalColor
    else totalColor + shadeLightContribution mat normal viewDir point light)
    ⟨0, 0, 0⟩

/-- The mirror-reflected ray direction of `shade` (`scene-rendering/main.cpp`
lines 255-258): `normalize(I - N*(2*(N·I)))` with `I = -viewDir`. -/
noncomputable def reflectDir (normal viewDir : Vector3D) : Vector3D :=
  ((-viewDir) - normal * (2 * normal.dot (-viewDir))).normalizedS

open Classical in
/-- `shade` of `scene-rendering/main.cpp` (lines 223-281): returns black at
depth `MAX_DEPTH` or beyond, otherwise the local shading sum plus, when the
material's reflectivity is positive and the traced reflection ray reports a
hit, the recursive color of that hit scaled by the reflectivity. -/
noncomputable def shade (svc : IntersectService) (lights : List SceneLight)
    (rayhit : Hit) (viewDir : Vector3D) (depth : ℕ) : Color :=
  if MAX_DEPTH ≤ depth then ⟨0, 0, 0⟩
  else
    let point := rayhit.point
    let normal := rayhit.ng.normalizedS
    let totalColor := localShade svc.occluded lights rayhit.material normal viewDir point
    if 0 < rayhit.material.reflectivity then
      let reflectedDir := reflectDir normal viewDir
      match svc.intersect point reflectedDir with
      | some hit2 =>
          totalColor + shade svc lights hit2 reflectedDir (depth + 1) * rayhit.material.reflectivity
      | none => totalColor
    else totalColor
termination_by MAX_DEPTH - depth
decreasing_by simp only [MAX_DEPTH] at *; omega

open Classical in
/-- The number of recursive `shade` invocations issued below a given call,
mirroring the recursion structure of `shade`: zero at the depth cap or when
no reflection ray is traced or it misses, one plus the count of the
recursive call otherwise. -/
noncomputable def recCalls (svc : IntersectService) (lights : List SceneLight)
    (rayhit : Hit) (viewDir : Vector3D) (depth : ℕ) : ℕ :=
  if MAX_DEPTH ≤ depth then 0
  else if 0 < rayhit.material.reflectivity then
    match svc.intersect rayhit.point (reflectDir (rayhit.ng.normalizedS) viewDir) with
    | some hit2 => 1 + recCalls svc lights hit2 (reflectDir (rayhit.ng.normalizedS) viewDir) (depth + 1)
    | none => 0
  else 0
termination_by MAX_DEPTH - depth
decreasing_by simp only [MAX_DEPTH] at *; omega

@[simp]
lemma Vector3D.add_mk (a₁ b₁ c₁ a₂ b₂ c₂ : ℝ) :
    (⟨a₁, b₁, c₁⟩ : Vector3D) + ⟨a₂, b₂, c₂⟩ = ⟨a₁ + a₂, b₁ + b₂, c₁ + c₂⟩ := rfl

@[simp]
lemma Vector3D.sub_mk (a₁ b₁ c₁ a₂ b₂ c₂ : ℝ) :
    (⟨a₁, b₁, c₁⟩ : Vector3D) - ⟨a₂, b₂, c₂⟩ = ⟨a₁ - a₂, b₁ - b₂, c₁ - c₂⟩ := rfl

@[simp]
lemma Vector3D.neg_mk (a b c : ℝ) :
    -(⟨a, b, c⟩ : Vector3D) = ⟨-a, -b, -c⟩ := rfl

@[simp]
lemma Vector3D.smul_mk (a b c s : ℝ) :
    (⟨a, b, c⟩ : Vector3D) * s = ⟨a * s, b * s, c * s⟩ := rfl

@[simp]
lemma Vector3D.dot_mk (a₁ b₁ c₁ a₂ b₂ c₂ : ℝ) :
    Vector3D.dot ⟨a₁, b₁, c₁⟩ ⟨a₂, b₂, c₂⟩ = a₁ * a₂ + b₁ * b₂ + c₁ * c₂ := rfl

@[simp]
lemma Vector3D.cross_mk (a₁ b₁ c₁ a₂ b₂ c₂ : ℝ) :
    Vector3D.cross ⟨a₁, b₁, c₁⟩ ⟨a₂, b₂, c₂⟩ =
      ⟨b₁ * c₂ - c₁ * b₂, c₁ * a₂ - a₁ * c₂, a₁ * b₂ - b₁ * a₂⟩ := rfl

@[simp]
lemma Vector3D.norm_mk (a b c : ℝ) :
    Vector3D.norm ⟨a, b, c⟩ = Real.sqrt (a * a + b * b + c * c) := rfl

@[simp]
lemma Color.mk_add (a₁ b₁ c₁ a₂ b₂ c₂ : ℝ) :
    (⟨a₁, b₁, c₁⟩ : Color) + ⟨a₂, b₂, c₂⟩ = ⟨a₁ + a₂, b₁ + b₂, c₁ + c₂⟩ := rfl

@[simp]
lemma Color.mk_smul (a b c s : ℝ) :
    (⟨a, b, c⟩ : Color) * s = ⟨a * s, b * s, c * s⟩ := rfl

@[simp]
lemma Color.mul_mk (a₁ b₁ c₁ a₂ b₂ c₂ : ℝ) :
    (⟨a₁, b₁, c₁⟩ : Color) * (⟨a₂, b₂, c₂⟩ : Color) =
      (⟨a₁ * a₂, b₁ * b₂, c₁ * c₂⟩ : Color) := rfl

@[simp]
lemma Color.add_r (a c : Color) : (a + c).r = a.r + c.r := rfl

@[simp]
lemma Color.add_g (a c : Color) : (a + c).g = a.g + c.g := rfl

@[simp]
lemma Color.add_b (a c : Color) : (a + c).b = a.b + c.b := rfl

@[simp]
lemma Color.smul_r (a : Color) (s : ℝ) : (a * s).r = a.r * s := rfl

@[simp]
lemma Color.smul_g (a : Color) (s : ℝ) : (a * s).g = a.g * s := rfl

@[simp]
lemma Color.smul_b (a : Color) (s : ℝ) : (a * s).b = a.b * s := rfl

@[simp]
lemma Color.mul_r (a c : Color) : (a * c).r = a.r * c.r := rfl

@[simp]
lemma Color.mul_g (a c : Color) : (a * c).g = a.g * c.g := rfl

@[simp]
lemma Color.mul_b (a c : Color) : (a * c).b = a.b * c.b := rfl

lemma Vector3D.norm_nonneg (v : Vector3D) : 0 ≤ v.norm :=
  Real.sqrt_nonneg _

lemma Vector3D.norm_eq_zero_iff (v : Vector3D) :
    v.norm = 0 ↔ v = ⟨0, 0, 0⟩ := by
  obtain ⟨a, b, c⟩ := v
  simp only [Vector3D.norm_mk, Vector3D.mk.injEq]
  rw [Real.sqrt_eq_zero
    (add_nonneg (add_nonneg (mul_self_nonneg a) (mul_self_nonneg b)) (mul_self_nonneg c))]
  constructor
  · intro h
    refine ⟨?_, ?_, ?_⟩ <;> nlinarith [mul_self_nonneg a, mul_self_nonneg b, mul_self_nonneg c]
  · rintro ⟨rfl, rfl, rfl⟩; ring

@[simp]
lemma Vector3D.smul_x (v : Vector3D) (c : ℝ) : (v * c).x = v.x * c := rfl

@[simp]
lemma Vector3D.smul_y (v : Vector3D) (c : ℝ) : (v * c).y = v.y * c := rfl

@[simp]
lemma Vector3D.smul_z (v : Vector3D) (c : ℝ) : (v * c).z = v.z * c := rfl

@[simp]
lemma Vector3D.add_x (a b : Vector3D) : (a + b).x = a.x + b.x := rfl

@[simp]
lemma Vector3D.add_y (a b : Vector3D) : (a + b).y = a.y + b.y := rfl

@[simp]
lemma Vector3D.add_z (a b : Vector3D) : (a + b).z = a.z + b.z := rfl

@[simp]
lemma Vector3D.sub_x (a b : Vector3D) : (a - b).x = a.x - b.x := rfl

@[simp]
lemma Vector3D.sub_y (a b : Vector3D) : (a - b).y = a.y - b.y := rfl

@[simp]
lemma Vector3D.sub_z (a b : Vector3D) : (a - b).z = a.z - b.z := rfl

lemma Vector3D.normalizedB_of_norm_one (v : Vector3D) (h : v.norm = 1) :
    v.normalizedB = v := by
  rw [Vector3D.normalizedB, if_pos (by rw [h]; norm_num)]
  obtain ⟨a, b, c⟩ := v
  simp [h]

lemma Vector3D.normalizedB_eq (v : Vector3D) (h : v.norm ≠ 0) :
    v.normalizedB = ⟨v.x / v.norm, v.y / v.norm, v.z / v.norm⟩ := by
  rw [Vector3D.normalizedB, if_pos h]
  ext <;> simp [div_eq_mul_inv]

lemma Vector3D.norm_smul (v : Vector3D) (c : ℝ) :
    (v * c).norm = |c| * v.norm := by
  obtain ⟨a, b, d⟩ := v
  simp only [Vector3D.smul_mk, Vector3D.norm_mk]
  rw [show a * c * (a * c) + b * c * (b * c) + d * c * (d * c)
        = c ^ 2 * (a * a + b * b + d * d) by ring,
    Real.sqrt_mul (sq_nonneg c), Real.sqrt_sq_eq_abs]

lemma Vector3D.normalizedB_smul_pos (v : Vector3D) (c : ℝ) (hc : 0 < c) :
    (v * c).normalizedB = v.normalizedB := by
  by_cases h : v.norm = 0
  · have hv : v = ⟨0, 0, 0⟩ := (Vector3D.norm_eq_zero_iff v).mp h
    subst hv
    simp [Vector3D.normalizedB]
  · have hpos : 0 < v.norm := lt_of_le_of_ne (Vector3D.norm_nonneg v) (Ne.symm h)
    have hcn : (v * c).norm = c * v.norm := by
      rw [Vector3D.norm_smul, abs_of_pos hc]
    rw [Vector3D.normalizedB, Vector3D.normalizedB, if_pos h, if_pos (by
      rw [hcn]; positivity)]
    obtain ⟨a, b, d⟩ := v
    rw [hcn]
    simp only [Vector3D.smul_mk, Vector3D.mk.injEq]
    have hc' : c ≠ 0 := ne_of_gt hc
    have hs : Real.sqrt (a * a + b * b + d * d) ≠ 0 := by
      simpa [Vector3D.norm_mk] using h
    refine ⟨?_, ?_, ?_⟩ <;> field_simp <;> ring

lemma sqrt_four : Real.sqrt 4 = 2 := by
  rw [show (4 : ℝ) = 2 ^ 2 by norm_num, Real.sqrt_sq (by norm_num)]

lemma PTof_zero (P0 P1 P2 : Vector3D) : PTof P0 P1 P2 0 0 = P0 := by
  ext <;> simp [PTof]

lemma Nof_std :
    Nof ⟨0, 0, 0⟩ ⟨1, 0, 0⟩ ⟨0, 1, 0⟩ = ⟨0, 0, -1⟩ := by
  have h : ((⟨0, 1, 0⟩ : Vector3D) - ⟨0, 0, 0⟩).cross ((⟨1, 0, 0⟩ : Vector3D) - ⟨0, 0, 0⟩)
      = ⟨0, 0, -1⟩ := by
    simp only [Vector3D.sub_mk, Vector3D.cross_mk]
    norm_num
  rw [Nof, h, Vector3D.normalizedB_of_norm_one]
  rw [Vector3D.norm_mk]
  norm_num

lemma norm_00m1 : (⟨0, 0, -1⟩ : Vector3D).norm = 1 := by
  rw [Vector3D.norm_mk]; norm_num

lemma nB_00m1 : (⟨0, 0, -1⟩ : Vector3D).normalizedB = ⟨0, 0, -1⟩ :=
  Vector3D.normalizedB_of_norm_one _ norm_00m1

lemma norm_002 : (⟨0, 0, 2⟩ : Vector3D).norm = 2 := by
  rw [Vector3D.norm_mk]; norm_num [sqrt_four]

lemma norm_00m2 : (⟨0, 0, -2⟩ : Vector3D).norm = 2 := by
  rw [Vector3D.norm_mk]; norm_num [sqrt_four]

lemma nB_002 : (⟨0, 0, 2⟩ : Vector3D).normalizedB = ⟨0, 0, 1⟩ := by
  rw [Vector3D.normalizedB_eq _ (by rw [norm_002]; norm_num)]
  ext <;> simp [norm_002]

lemma nB_00m2 : (⟨0, 0, -2⟩ : Vector3D).normalizedB = ⟨0, 0, -1⟩ := by
  rw [Vector3D.normalizedB_eq _ (by rw [norm_00m2]; norm_num)]
  ext <;> simp [norm_00m2]

@[simp]
lemma SceneLight.intensity_point (p : Vector3D) (i : Color) :
    (SceneLight.point p i).intensity = i := rfl

@[simp]
lemma SceneLight.intensity_directional (d : Vector3D) (i : Color) :
    (SceneLight.directional d i).intensity = i := rfl

lemma normalizedI_of_norm_one (v : Vector3D) (h : v.norm = 1) :
    v.normalizedI = some v := by
  rw [Vector3D.normalizedI, if_neg (by rw [h]; norm_num), h]
  obtain ⟨a, b, c⟩ := v
  norm_num

lemma nI_100 : (⟨1, 0, 0⟩ : Vector3D).normalizedI = some ⟨1, 0, 0⟩ :=
  normalizedI_of_norm_one _ (by rw [Vector3D.norm_mk]; norm_num)

lemma nI_010 : (⟨0, 1, 0⟩ : Vector3D).normalizedI = some ⟨0, 1, 0⟩ :=
  normalizedI_of_norm_one _ (by rw [Vector3D.norm_mk]; norm_num)

lemma nI_00m1 : (⟨0, 0, -1⟩ : Vector3D).normalizedI = some ⟨0, 0, -1⟩ :=
  normalizedI_of_norm_one _ norm_00m1

lemma recCalls_eq_sub (svc : IntersectService) (lights : List SceneLight)
    (hAll : ∀ p d, (svc.intersect p d).isSome)
    (hRefl : ∀ p d h, svc.intersect p d = some h → 0 < h.material.reflectivity) :
    ∀ (k depth : ℕ) (hit : Hit) (viewDir : Vector3D), MAX_DEPTH - depth ≤ k →
      0 < hit.material.reflectivity →
      recCalls svc lights hit viewDir depth = MAX_DEPTH - depth := by
  intro k
  induction k with
  | zero =>
    intro depth hit viewDir hk h0
    rw [recCalls, if_pos (by omega)]
    omega
  | succ k ih =>
    intro depth hit viewDir hk h0
    by_cases hd : MAX_DEPTH ≤ depth
    · rw [recCalls, if_pos hd]
      omega
    · rw [recCalls, if_neg hd, if_pos h0]
      obtain ⟨hit2, hh⟩ : ∃ h2, svc.intersect hit.point
          (reflectDir (hit.ng.normalizedS) viewDir) = some h2 :=
        Option.isSome_iff_exists.mp
          (hAll hit.point (reflectDir (hit.ng.normalizedS) viewDir))
      rw [hh]
      show 1 + recCalls svc lights hit2 (reflectDir (hit.ng.normalizedS) viewDir) (depth + 1)
        = MAX_DEPTH - depth
      rw [ih (depth + 1) hit2 (reflectDir (hit.ng.normalizedS) viewDir) (by omega)
        (hRefl _ _ _ hh)]
      omega

/-- C3: whenever the light's position and the view reference are not
strictly on the same side of the plane through PT with normal N — the
product of the two signed dot products is ≤ 0 — `calculateIllumination`
returns exactly black. -/
theorem calculateIllumination_backface_black (light : Light)
    (P0 P1 P2 : Vector3D) (x y : ℝ) (viewDir : Vector3D)
    (h : ((light.position - PTof P0 P1 P2 x y).dot (Nof P0 P1 P2)) *
      ((viewDir - PTof P0 P1 P2 x y).dot (Nof P0 P1 P2)) ≤ 0) :
    calculateIllumination light P0 P1 P2 x y viewDir = ⟨0, 0, 0⟩ := by
  rw [calculateIllumination, if_neg]
  simp only [isSameSide, gt_iff_lt, not_lt]
  exact h

/-- Witness for C3: a light placed at (0,0,-1) behind the standard
triangle, viewed from (0,0,1), yields a non-positive side product and the
evaluator returns black. -/
theorem calculateIllumination_backface_black_witness :
    (((⟨0, 0, -1⟩ : Vector3D) - PTof ⟨0, 0, 0⟩ ⟨1, 0, 0⟩ ⟨0, 1, 0⟩ 0 0).dot
        (Nof ⟨0, 0, 0⟩ ⟨1, 0, 0⟩ ⟨0, 1, 0⟩)) *
      (((⟨0, 0, 1⟩ : Vector3D) - PTof ⟨0, 0, 0⟩ ⟨1, 0, 0⟩ ⟨0, 1, 0⟩ 0 0).dot
        (Nof ⟨0, 0, 0⟩ ⟨1, 0, 0⟩ ⟨0, 1, 0⟩)) ≤ 0
    ∧ calculateIllumination ⟨⟨0, 0, -1⟩, ⟨0, -1, 0⟩, ⟨10, 10, 10⟩⟩
        ⟨0, 0, 0⟩ ⟨1, 0, 0⟩ ⟨0, 1, 0⟩ 0 0 ⟨0, 0, 1⟩ = ⟨0, 0, 0⟩ := by
  have h : (((⟨0, 0, -1⟩ : Vector3D) - PTof ⟨0, 0, 0⟩ ⟨1, 0, 0⟩ ⟨0, 1, 0⟩ 0 0).dot
        (Nof ⟨0, 0, 0⟩ ⟨1, 0, 0⟩ ⟨0, 1, 0⟩)) *
      (((⟨0, 0, 1⟩ : Vector3D) - PTof ⟨0, 0, 0⟩ ⟨1, 0, 0⟩ ⟨0, 1, 0⟩ 0 0).dot
        (Nof ⟨0, 0, 0⟩ ⟨1, 0, 0⟩ ⟨0, 1, 0⟩)) ≤ 0 := by
    rw [PTof_zero, Nof_std]
    simp only [Vector3D.sub_mk, Vector3D.dot_mk]
    norm_num
  exact ⟨h, calculateIllumination_backface_black _ _ _ _ _ _ _ h⟩

/-- C1 counterexample: at a concrete input that passes the backface test —
light position (0,0,-2), light direction (0,0,-1), intensity (4,4,4), the
standard triangle, x=y=0 and view reference (0,0,-1) — the code returns
black, while the claimed formula (with s the normalized vector from PT
toward the light) evaluates to (1,1,1): the code computes
`s_vec = PT - light.position`, the opposite direction. -/
theorem calculateIllumination_claim_counterexample :
    isSameSide (⟨0, 0, -2⟩ : Vector3D) (PTof ⟨0, 0, 0⟩ ⟨1, 0, 0⟩ ⟨0, 1, 0⟩ 0 0)
      (Nof ⟨0, 0, 0⟩ ⟨1, 0, 0⟩ ⟨0, 1, 0⟩) ⟨0, 0, -1⟩
    ∧ calculateIllumination ⟨⟨0, 0, -2⟩, ⟨0, 0, -1⟩, ⟨4, 4, 4⟩⟩
        ⟨0, 0, 0⟩ ⟨1, 0, 0⟩ ⟨0, 1, 0⟩ 0 0 ⟨0, 0, -1⟩ = ⟨0, 0, 0⟩
    ∧ (⟨4, 4, 4⟩ : Color) *
        (max 0 ((((⟨0, 0, -2⟩ : Vector3D) - PTof ⟨0, 0, 0⟩ ⟨1, 0, 0⟩ ⟨0, 1, 0⟩ 0 0).normalizedB).dot
            ((⟨0, 0, -1⟩ : Vector3D).normalizedB)) *
          max 0 ((((⟨0, 0, -2⟩ : Vector3D) - PTof ⟨0, 0, 0⟩ ⟨1, 0, 0⟩ ⟨0, 1, 0⟩ 0 0).normalizedB).dot
            (Nof ⟨0, 0, 0⟩ ⟨1, 0, 0⟩ ⟨0, 1, 0⟩)) /
          (((⟨0, 0, -2⟩ : Vector3D) - PTof ⟨0, 0, 0⟩ ⟨1, 0, 0⟩ ⟨0, 1, 0⟩ 0 0).norm *
            ((⟨0, 0, -2⟩ : Vector3D) - PTof ⟨0, 0, 0⟩ ⟨1, 0, 0⟩ ⟨0, 1, 0⟩ 0 0).norm))
        = ⟨1, 1, 1⟩
    ∧ (⟨0, 0, 0⟩ : Color) ≠ (⟨1, 1, 1⟩ : Color) := by
  have hpass : isSameSide (⟨0, 0, -2⟩ : Vector3D)
      (PTof ⟨0, 0, 0⟩ ⟨1, 0, 0⟩ ⟨0, 1, 0⟩ 0 0)
      (Nof ⟨0, 0, 0⟩ ⟨1, 0, 0⟩ ⟨0, 1, 0⟩) ⟨0, 0, -1⟩ := by
    rw [isSameSide, PTof_zero, Nof_std]
    simp only [Vector3D.sub_mk, Vector3D.dot_mk]
    norm_num
  refine ⟨hpass, ?_, ?_, ?_⟩
  · rw [calculateIllumination, if_pos hpass]
    simp only [PTof_zero, Nof_std, Vector3D.sub_mk]
    norm_num [nB_002, nB_00m1, norm_002]
  · rw [PTof_zero]
    simp only [Vector3D.sub_mk]
    norm_num [nB_00m2, nB_00m1, norm_00m2, Nof_std]
  · intro h
    have := congrArg Color.r h
    norm_num at this

/-- C1 (amended): whenever the backface test passes,
`calculateIllumination` returns `light.intensity` scaled by
`cos_theta * cos_alpha / R²`, where — unlike the claim's wording — `s` is
the normalized vector from the light position toward the surface point
(`s_vec = PT - light.position`), `cos_alpha = max 0 (s·N)`,
`cos_theta = max 0 (s·d̂)` with `d̂` the normalized stored light direction,
and `R²` the squared distance between PT and the light. -/
theorem calculateIllumination_formula (light : Light)
    (P0 P1 P2 : Vector3D) (x y : ℝ) (viewDir : Vector3D)
    (h : isSameSide light.position (PTof P0 P1 P2 x y) (Nof P0 P1 P2) viewDir) :
    calculateIllumination light P0 P1 P2 x y viewDir =
      light.intensity *
        (max 0 (((PTof P0 P1 P2 x y - light.position).normalizedB).dot
            (light.direction.normalizedB)) *
          max 0 (((PTof P0 P1 P2 x y - light.position).normalizedB).dot (Nof P0 P1 P2)) /
          ((PTof P0 P1 P2 x y - light.position).norm *
            (PTof P0 P1 P2 x y - light.position).norm)) := by
  rw [calculateIllumination, if_pos h]

/-- Witness for C1: a light at (0,0,1) aimed along (0,0,-1) with intensity
(4,4,4), over the standard triangle with view reference (0,0,2), passes
the backface test; both `calculateIllumination` and the amended formula
evaluate to (4,4,4). -/
theorem calculateIllumination_formula_witness :
    isSameSide (⟨0, 0, 1⟩ : Vector3D) (PTof ⟨0, 0, 0⟩ ⟨1, 0, 0⟩ ⟨0, 1, 0⟩ 0 0)
      (Nof ⟨0, 0, 0⟩ ⟨1, 0, 0⟩ ⟨0, 1, 0⟩) ⟨0, 0, 2⟩
    ∧ calculateIllumination ⟨⟨0, 0, 1⟩, ⟨0, 0, -1⟩, ⟨4, 4, 4⟩⟩
        ⟨0, 0, 0⟩ ⟨1, 0, 0⟩ ⟨0, 1, 0⟩ 0 0 ⟨0, 0, 2⟩ =
      (⟨4, 4, 4⟩ : Color) *
        (max 0 (((PTof ⟨0, 0, 0⟩ ⟨1, 0, 0⟩ ⟨0, 1, 0⟩ 0 0 - ⟨0, 0, 1⟩).normalizedB).dot
            ((⟨0, 0, -1⟩ : Vector3D).normalizedB)) *
          max 0 (((PTof ⟨0, 0, 0⟩ ⟨1, 0, 0⟩ ⟨0, 1, 0⟩ 0 0 - ⟨0, 0, 1⟩).normalizedB).dot
            (Nof ⟨0, 0, 0⟩ ⟨1, 0, 0⟩ ⟨0, 1, 0⟩)) /
          ((PTof ⟨0, 0, 0⟩ ⟨1, 0, 0⟩ ⟨0, 1, 0⟩ 0 0 - ⟨0, 0, 1⟩).norm *
            (PTof ⟨0, 0, 0⟩ ⟨1, 0, 0⟩ ⟨0, 1, 0⟩ 0 0 - ⟨0, 0, 1⟩).norm)) := by
  have hpass : isSameSide (⟨0, 0, 1⟩ : Vector3D)
      (PTof ⟨0, 0, 0⟩ ⟨1, 0, 0⟩ ⟨0, 1, 0⟩ 0 0)
      (Nof ⟨0, 0, 0⟩ ⟨1, 0, 0⟩ ⟨0, 1, 0⟩) ⟨0, 0, 2⟩ := by
    rw [isSameSide, PTof_zero, Nof_std]
    simp only [Vector3D.sub_mk, Vector3D.dot_mk]
    norm_num
  exact ⟨hpass, calculateIllumination_formula ⟨⟨0, 0, 1⟩, ⟨0, 0, -1⟩, ⟨4, 4, 4⟩⟩
    ⟨0, 0, 0⟩ ⟨1, 0, 0⟩ ⟨0, 1, 0⟩ 0 0 ⟨0, 0, 2⟩ hpass⟩

/-- C8: on the concrete input of the spec's regression scenario — a point
light at (0,5,0) with intensity (10,10,10) and direction (0,-1,0), the
triangle P0=(0,0,0), P1=(1,0,0), P2=(0,1,0), local coordinates x=y=0 and
view direction (0,0,1) — `calculateIllumination` returns exactly black. -/
theorem calculateIllumination_concrete_zero :
    calculateIllumination ⟨⟨0, 5, 0⟩, ⟨0, -1, 0⟩, ⟨10, 10, 10⟩⟩
      ⟨0, 0, 0⟩ ⟨1, 0, 0⟩ ⟨0, 1, 0⟩ 0 0 ⟨0, 0, 1⟩ = ⟨0, 0, 0⟩ := by
  rw [calculateIllumination, if_neg]
  rw [isSameSide, PTof_zero, Nof_std]
  simp only [Vector3D.sub_mk, Vector3D.dot_mk]
  norm_num

/-- C6 counterexample: a light with intensity (-1,0,0) at (0,0,1) over the
standard triangle, view reference (0,0,2), is strictly on the illuminated
side, yet `calculateIllumination` returns a strictly negative red channel:
the claim's unconditional non-negativity fails because `Color` intensities
are unbounded and may be negative. -/
theorem illumination_negative_intensity_counterexample :
    0 < (((⟨0, 0, 1⟩ : Vector3D) - PTof ⟨0, 0, 0⟩ ⟨1, 0, 0⟩ ⟨0, 1, 0⟩ 0 0).dot
        (Nof ⟨0, 0, 0⟩ ⟨1, 0, 0⟩ ⟨0, 1, 0⟩)) *
      (((⟨0, 0, 2⟩ : Vector3D) - PTof ⟨0, 0, 0⟩ ⟨1, 0, 0⟩ ⟨0, 1, 0⟩ 0 0).dot
        (Nof ⟨0, 0, 0⟩ ⟨1, 0, 0⟩ ⟨0, 1, 0⟩))
    ∧ (calculateIllumination ⟨⟨0, 0, 1⟩, ⟨0, 0, -1⟩, ⟨-1, 0, 0⟩⟩
        ⟨0, 0, 0⟩ ⟨1, 0, 0⟩ ⟨0, 1, 0⟩ 0 0 ⟨0, 0, 2⟩).r < 0 := by
  have hpass : isSameSide (⟨0, 0, 1⟩ : Vector3D)
      (PTof ⟨0, 0, 0⟩ ⟨1, 0, 0⟩ ⟨0, 1, 0⟩ 0 0)
      (Nof ⟨0, 0, 0⟩ ⟨1, 0, 0⟩ ⟨0, 1, 0⟩) ⟨0, 0, 2⟩ := by
    rw [isSameSide, PTof_zero, Nof_std]
    simp only [Vector3D.sub_mk, Vector3D.dot_mk]
    norm_num
  constructor
  · rw [PTof_zero, Nof_std]
    simp only [Vector3D.sub_mk, Vector3D.dot_mk]
    norm_num
  · rw [calculateIllumination, if_pos hpass]
    simp only [PTof_zero, Nof_std, Vector3D.sub_mk]
    norm_num [nB_00m1, norm_00m1]

/-- C6 (amended): for a light whose intensity is non-negative in every
channel and a surface point strictly on the illuminated side of the
backface test, the irradiance is non-negative in every channel; and moving
the light to double its distance from PT along the same direction (all
other inputs unchanged) divides every channel by exactly 4 (the
non-negative-intensity hypothesis is forced by the counterexample; the
quartering needs no such hypothesis). -/
theorem illumination_nonneg_inverse_square (light : Light)
    (P0 P1 P2 : Vector3D) (x y : ℝ) (viewDir : Vector3D)
    (hstrict : 0 < ((light.position - PTof P0 P1 P2 x y).dot (Nof P0 P1 P2)) *
      ((viewDir - PTof P0 P1 P2 x y).dot (Nof P0 P1 P2)))
    (hr : 0 ≤ light.intensity.r) (hg : 0 ≤ light.intensity.g)
    (hb : 0 ≤ light.intensity.b) :
    (0 ≤ (calculateIllumination light P0 P1 P2 x y viewDir).r
      ∧ 0 ≤ (calculateIllumination light P0 P1 P2 x y viewDir).g
      ∧ 0 ≤ (calculateIllumination light P0 P1 P2 x y viewDir).b)
    ∧ calculateIllumination
        ⟨PTof P0 P1 P2 x y + (light.position - PTof P0 P1 P2 x y) * (2 : ℝ),
          light.direction, light.intensity⟩ P0 P1 P2 x y viewDir
      = calculateIllumination light P0 P1 P2 x y viewDir * ((1 : ℝ) / 4) := by
  have hpass : isSameSide light.position (PTof P0 P1 P2 x y) (Nof P0 P1 P2) viewDir :=
    hstrict
  have hdot2 : (PTof P0 P1 P2 x y + (light.position - PTof P0 P1 P2 x y) * (2 : ℝ)
      - PTof P0 P1 P2 x y).dot (Nof P0 P1 P2)
      = 2 * ((light.position - PTof P0 P1 P2 x y).dot (Nof P0 P1 P2)) := by
    simp [Vector3D.dot]
    ring
  have hpass2 : isSameSide
      (PTof P0 P1 P2 x y + (light.position - PTof P0 P1 P2 x y) * (2 : ℝ))
      (PTof P0 P1 P2 x y) (Nof P0 P1 P2) viewDir := by
    rw [isSameSide, hdot2]
    nlinarith [hstrict]
  have hsvec : PTof P0 P1 P2 x y
      - (PTof P0 P1 P2 x y + (light.position - PTof P0 P1 P2 x y) * (2 : ℝ))
      = (PTof P0 P1 P2 x y - light.position) * (2 : ℝ) := by
    ext <;> simp <;> ring
  constructor
  · rw [calculateIllumination, if_pos hpass]
    have ht : 0 ≤ max 0 (((PTof P0 P1 P2 x y - light.position).normalizedB).dot
          (light.direction.normalizedB)) *
        max 0 (((PTof P0 P1 P2 x y - light.position).normalizedB).dot (Nof P0 P1 P2)) /
        ((PTof P0 P1 P2 x y - light.position).norm *
          (PTof P0 P1 P2 x y - light.position).norm) :=
      div_nonneg (mul_nonneg (le_max_left 0 _) (le_max_left 0 _))
        (mul_nonneg (Vector3D.norm_nonneg _) (Vector3D.norm_nonneg _))
    exact ⟨mul_nonneg hr ht, mul_nonneg hg ht, mul_nonneg hb ht⟩
  · rw [calculateIllumination, calculateIllumination, if_pos hpass2, if_pos hpass]
    simp only [hsvec, Vector3D.normalizedB_smul_pos _ 2 (by norm_num),
      Vector3D.norm_smul, abs_of_pos (show (0:ℝ) < 2 by norm_num)]
    ext <;> simp <;> ring

/-- Witness for C6: a light at (0,0,1) aimed along (0,0,-1) with
non-negative intensity (4,4,4) over the standard triangle, view reference
(0,0,2): strictly illuminated side, non-negative channels, and doubling the
distance quarters every channel. -/
theorem illumination_nonneg_inverse_square_witness :
    (0 < (((⟨0, 0, 1⟩ : Vector3D) - PTof ⟨0, 0, 0⟩ ⟨1, 0, 0⟩ ⟨0, 1, 0⟩ 0 0).dot
        (Nof ⟨0, 0, 0⟩ ⟨1, 0, 0⟩ ⟨0, 1, 0⟩)) *
      (((⟨0, 0, 2⟩ : Vector3D) - PTof ⟨0, 0, 0⟩ ⟨1, 0, 0⟩ ⟨0, 1, 0⟩ 0 0).dot
        (Nof ⟨0, 0, 0⟩ ⟨1, 0, 0⟩ ⟨0, 1, 0⟩)))
    ∧ (0 ≤ (calculateIllumination ⟨⟨0, 0, 1⟩, ⟨0, 0, -1⟩, ⟨4, 4, 4⟩⟩
          ⟨0, 0, 0⟩ ⟨1, 0, 0⟩ ⟨0, 1, 0⟩ 0 0 ⟨0, 0, 2⟩).r
        ∧ 0 ≤ (calculateIllumination ⟨⟨0, 0, 1⟩, ⟨0, 0, -1⟩, ⟨4, 4, 4⟩⟩
          ⟨0, 0, 0⟩ ⟨1, 0, 0⟩ ⟨0, 1, 0⟩ 0 0 ⟨0, 0, 2⟩).g
        ∧ 0 ≤ (calculateIllumination ⟨⟨0, 0, 1⟩, ⟨0, 0, -1⟩, ⟨4, 4, 4⟩⟩
          ⟨0, 0, 0⟩ ⟨1, 0, 0⟩ ⟨0, 1, 0⟩ 0 0 ⟨0, 0, 2⟩).b)
    ∧ calculateIllumination
        ⟨PTof ⟨0, 0, 0⟩ ⟨1, 0, 0⟩ ⟨0, 1, 0⟩ 0 0
          + ((⟨0, 0, 1⟩ : Vector3D) - PTof ⟨0, 0, 0⟩ ⟨1, 0, 0⟩ ⟨0, 1, 0⟩ 0 0) * (2 : ℝ),
          ⟨0, 0, -1⟩, ⟨4, 4, 4⟩⟩ ⟨0, 0, 0⟩ ⟨1, 0, 0⟩ ⟨0, 1, 0⟩ 0 0 ⟨0, 0, 2⟩
      = calculateIllumination ⟨⟨0, 0, 1⟩, ⟨0, 0, -1⟩, ⟨4, 4, 4⟩⟩
          ⟨0, 0, 0⟩ ⟨1, 0, 0⟩ ⟨0, 1, 0⟩ 0 0 ⟨0, 0, 2⟩ * ((1 : ℝ) / 4) := by
  have hstrict : 0 < (((⟨0, 0, 1⟩ : Vector3D)
        - PTof ⟨0, 0, 0⟩ ⟨1, 0, 0⟩ ⟨0, 1, 0⟩ 0 0).dot
        (Nof ⟨0, 0, 0⟩ ⟨1, 0, 0⟩ ⟨0, 1, 0⟩)) *
      (((⟨0, 0, 2⟩ : Vector3D) - PTof ⟨0, 0, 0⟩ ⟨1, 0, 0⟩ ⟨0, 1, 0⟩ 0 0).dot
        (Nof ⟨0, 0, 0⟩ ⟨1, 0, 0⟩ ⟨0, 1, 0⟩)) := by
    rw [PTof_zero, Nof_std]
    simp only [Vector3D.sub_mk, Vector3D.dot_mk]
    norm_num
  have h := illumination_nonneg_inverse_square ⟨⟨0, 0, 1⟩, ⟨0, 0, -1⟩, ⟨4, 4, 4⟩⟩
    ⟨0, 0, 0⟩ ⟨1, 0, 0⟩ ⟨0, 1, 0⟩ 0 0 ⟨0, 0, 2⟩ hstrict
    (by norm_num) (by norm_num) (by norm_num)
  exact ⟨hstrict, h.1, h.2⟩

/-- C5 counterexample: `illuminance-calculation`'s `calculateIllumination`
does not clamp its `cos_theta` factor (and takes an absolute value, not a
clamp, for `cos_alpha`): with intensity (1,1,1), light axis O=(0,0,1),
light position PL=(0,0,1) and the standard triangle at x=y=0 it returns
the strictly negative color (-1,-1,-1). -/
theorem illuminationArr_negative_counterexample :
    calculateIlluminationArr ⟨1, 1, 1⟩ ⟨0, 0, 1⟩ ⟨0, 0, 1⟩
      ⟨0, 0, 0⟩ ⟨1, 0, 0⟩ ⟨0, 1, 0⟩ 0 0 = some ⟨-1, -1, -1⟩
    ∧ ((-1 : ℝ) < 0) := by
  constructor
  · rw [calculateIlluminationArr]
    simp only [Vector3D.sub_mk, Vector3D.cross_mk]
    norm_num [nI_100, nI_010, nI_00m1, Option.bind, norm_00m1]
  · norm_num

/-- C5 (amended): in `brightness-calculation`'s `calculateIllumination` the
two cosine factors are clamped with `max 0`, so the result is always the
light's intensity scaled by a non-negative scalar; in `scene-rendering`'s
`shade` the factors `N·L` and `H·N` are clamped likewise, so a per-light
contribution with non-negative material and intensity components is
non-negative in every channel.  (The illuminance-calculation evaluator is
the exception established by the counterexample.) -/
theorem cosine_clamping (light : Light) (P0 P1 P2 : Vector3D) (x y : ℝ)
    (viewDir : Vector3D) (mat : SceneMaterial) (n vd p : Vector3D) (sl : SceneLight)
    (hcr : 0 ≤ mat.color.r) (hcg : 0 ≤ mat.color.g) (hcb : 0 ≤ mat.color.b)
    (hd : 0 ≤ mat.diffuse) (hs : 0 ≤ mat.specular)
    (hsr : 0 ≤ mat.specular_color.r) (hsg : 0 ≤ mat.specular_color.g)
    (hsb : 0 ≤ mat.specular_color.b)
    (hir : 0 ≤ sl.intensity.r) (hig : 0 ≤ sl.intensity.g) (hib : 0 ≤ sl.intensity.b) :
    (∃ t : ℝ, 0 ≤ t ∧
      calculateIllumination light P0 P1 P2 x y viewDir = light.intensity * t)
    ∧ (0 ≤ (shadeLightContribution mat n vd p sl).r
      ∧ 0 ≤ (shadeLightContribution mat n vd p sl).g
      ∧ 0 ≤ (shadeLightContribution mat n vd p sl).b) := by
  constructor
  · rw [calculateIllumination]
    by_cases hpass : isSameSide light.position (PTof P0 P1 P2 x y) (Nof P0 P1 P2) viewDir
    · rw [if_pos hpass]
      refine ⟨_, ?_, rfl⟩
      exact div_nonneg (mul_nonneg (le_max_left 0 _) (le_max_left 0 _))
        (mul_nonneg (Vector3D.norm_nonneg _) (Vector3D.norm_nonneg _))
    · rw [if_neg hpass]
      exact ⟨0, le_refl 0, by ext <;> simp⟩
  · have hatt : 0 ≤ sl.getAttenuation p := by
      cases sl <;> rw [SceneLight.getAttenuation] <;> norm_num
    have hpow : 0 ≤ (max 0 (((vd + sl.getDirection p).normalizedS).dot n)) ^ mat.exponent :=
      Real.rpow_nonneg (le_max_left 0 _) _
    have hNL : 0 ≤ max 0 (n.dot (sl.getDirection p)) := le_max_left 0 _
    rw [shadeLightContribution]
    refine ⟨?_, ?_, ?_⟩ <;>
      simp only [Color.smul_r, Color.smul_g, Color.smul_b, Color.mul_r, Color.mul_g,
        Color.mul_b, Color.add_r, Color.add_g, Color.add_b] <;>
      apply mul_nonneg (mul_nonneg (add_nonneg (mul_nonneg (mul_nonneg (by assumption) hd) hNL)
        (mul_nonneg (mul_nonneg (by assumption) hs) hpow)) (by assumption)) hatt

/-- Witness for C5: instantiated at the C1-witness light over the standard
triangle and at a unit material with unit point light for the shade
contribution; all hypotheses are concrete non-negativity checks. -/
theorem cosine_clamping_witness :
    (∃ t : ℝ, 0 ≤ t ∧
      calculateIllumination ⟨⟨0, 0, 1⟩, ⟨0, 0, -1⟩, ⟨4, 4, 4⟩⟩
          ⟨0, 0, 0⟩ ⟨1, 0, 0⟩ ⟨0, 1, 0⟩ 0 0 ⟨0, 0, 2⟩
        = (⟨4, 4, 4⟩ : Color) * t)
    ∧ (0 ≤ (shadeLightContribution ⟨⟨1, 1, 1⟩, 1, 1, 10, ⟨1, 1, 1⟩, 0⟩
          ⟨0, 1, 0⟩ ⟨0, 0, 1⟩ ⟨0, 0, 0⟩ (.point ⟨0, 5, 0⟩ ⟨2, 2, 2⟩)).r
      ∧ 0 ≤ (shadeLightContribution ⟨⟨1, 1, 1⟩, 1, 1, 10, ⟨1, 1, 1⟩, 0⟩
          ⟨0, 1, 0⟩ ⟨0, 0, 1⟩ ⟨0, 0, 0⟩ (.point ⟨0, 5, 0⟩ ⟨2, 2, 2⟩)).g
      ∧ 0 ≤ (shadeLightContribution ⟨⟨1, 1, 1⟩, 1, 1, 10, ⟨1, 1, 1⟩, 0⟩
          ⟨0, 1, 0⟩ ⟨0, 0, 1⟩ ⟨0, 0, 0⟩ (.point ⟨0, 5, 0⟩ ⟨2, 2, 2⟩)).b) :=
  cosine_clamping ⟨⟨0, 0, 1⟩, ⟨0, 0, -1⟩, ⟨4, 4, 4⟩⟩ ⟨0, 0, 0⟩ ⟨1, 0, 0⟩ ⟨0, 1, 0⟩
    0 0 ⟨0, 0, 2⟩ ⟨⟨1, 1, 1⟩, 1, 1, 10, ⟨1, 1, 1⟩, 0⟩ ⟨0, 1, 0⟩ ⟨0, 0, 1⟩ ⟨0, 0, 0⟩
    (.point ⟨0, 5, 0⟩ ⟨2, 2, 2⟩) (by norm_num) (by norm_num) (by norm_num)
    (by norm_num) (by norm_num) (by norm_num) (by norm_num) (by norm_num)
    (by simp) (by simp) (by simp)

/-- C7 counterexample: `illuminance-calculation`'s `normalized()` does not
return the zero vector unchanged — it divides by the zero norm (NaN in the
source, modelled as `none`), so the claimed guard fails for that variant. -/
theorem normalizedI_zero_counterexample :
    Vector3D.normalizedI ⟨0, 0, 0⟩ ≠ some ⟨0, 0, 0⟩ := by
  rw [Vector3D.normalizedI, if_pos (by rw [Vector3D.norm_mk]; norm_num)]
  simp

/-- C7 (amended): the `brightness-calculation` and `scene-rendering`
variants of `normalized()` return a zero-length vector unchanged, with no
division performed; the illuminance-calculation variant divides
unconditionally (see the counterexample). -/
theorem normalized_zero_guard (v : Vector3D) (h : v.norm = 0) :
    v.normalizedB = v ∧ v.normalizedS = v := by
  constructor
  · rw [Vector3D.normalizedB, if_neg (by simp [h])]
  · rw [Vector3D.normalizedS, if_neg (by rw [h]; norm_num)]

/-- Witness for C7: the zero vector has norm 0 and both guarded variants
return it unchanged. -/
theorem normalized_zero_guard_witness :
    (⟨0, 0, 0⟩ : Vector3D).normalizedB = ⟨0, 0, 0⟩
    ∧ (⟨0, 0, 0⟩ : Vector3D).normalizedS = ⟨0, 0, 0⟩ :=
  normalized_zero_guard ⟨0, 0, 0⟩ (by rw [Vector3D.norm_mk]; norm_num)

/-- C2: in a scene where every material hit has positive reflectivity and
the intersection service always reports a hit, the shader started at depth
0 issues exactly MAX_DEPTH (= 50) recursive calls; the call at depth
MAX_DEPTH returns black immediately and issues no further call (so no call
at a depth greater than MAX_DEPTH is ever made). -/
theorem shade_depth_cap (svc : IntersectService) (lights : List SceneLight)
    (hit : Hit) (viewDir : Vector3D)
    (hAll : ∀ p d, (svc.intersect p d).isSome)
    (hRefl : ∀ p d h, svc.intersect p d = some h → 0 < h.material.reflectivity)
    (h0 : 0 < hit.material.reflectivity) :
    recCalls svc lights hit viewDir 0 = MAX_DEPTH
    ∧ (∀ (hit' : Hit) (v : Vector3D),
        shade svc lights hit' v MAX_DEPTH = ⟨0, 0, 0⟩
        ∧ recCalls svc lights hit' v MAX_DEPTH = 0) := by
  refine ⟨?_, fun hit' v => ⟨?_, ?_⟩⟩
  · rw [recCalls_eq_sub svc lights hAll hRefl MAX_DEPTH 0 hit viewDir (by omega) h0]
    exact Nat.sub_zero MAX_DEPTH
  · rw [shade, if_pos (le_refl _)]
  · rw [recCalls, if_pos (le_refl _)]

/-- Witness for C2: a service that always reports the same fully
reflective hit (reflectivity 1) and never occludes, started at that hit:
the recursive call count from depth 0 is exactly MAX_DEPTH. -/
theorem shade_depth_cap_witness :
    recCalls ⟨fun _ _ => false,
        fun _ _ => some ⟨⟨0, 0, 0⟩, ⟨0, 1, 0⟩, ⟨⟨1, 1, 1⟩, 1, 0, 10, ⟨1, 1, 1⟩, 1⟩⟩⟩
      [] ⟨⟨0, 0, 0⟩, ⟨0, 1, 0⟩, ⟨⟨1, 1, 1⟩, 1, 0, 10, ⟨1, 1, 1⟩, 1⟩⟩ ⟨0, 0, 1⟩ 0
      = MAX_DEPTH :=
  (shade_depth_cap ⟨fun _ _ => false,
      fun _ _ => some ⟨⟨0, 0, 0⟩, ⟨0, 1, 0⟩, ⟨⟨1, 1, 1⟩, 1, 0, 10, ⟨1, 1, 1⟩, 1⟩⟩⟩
    [] ⟨⟨0, 0, 0⟩, ⟨0, 1, 0⟩, ⟨⟨1, 1, 1⟩, 1, 0, 10, ⟨1, 1, 1⟩, 1⟩⟩ ⟨0, 0, 1⟩
    (fun _ _ => rfl)
    (by
      intro p d h hh
      rw [Option.some.injEq] at hh
      subst hh
      norm_num)
    (by norm_num)).1

/-- C4: at a hit whose material has reflectivity 0 (below the depth cap),
`shade` returns exactly the local-only shading term — the accumulated
per-light diffuse+specular contributions of the unoccluded lights — makes
no recursive call, and never consults the reflection-ray intersection
query: any service with the same occlusion answers yields the same color. -/
theorem shade_zero_reflectivity_local (svc : IntersectService)
    (lights : List SceneLight) (rayhit : Hit) (viewDir : Vector3D) (depth : ℕ)
    (hrefl : rayhit.material.reflectivity = 0) (hd : depth < MAX_DEPTH) :
    shade svc lights rayhit viewDir depth
      = localShade svc.occluded lights rayhit.material (rayhit.ng.normalizedS)
          viewDir rayhit.point
    ∧ recCalls svc lights rayhit viewDir depth = 0
    ∧ (∀ svc' : IntersectService, svc'.occluded = svc.occluded →
        shade svc' lights rayhit viewDir depth = shade svc lights rayhit viewDir depth) := by
  have hnot : ¬ 0 < rayhit.material.reflectivity := by
    rw [hrefl]
    exact lt_irrefl 0
  have hnd : ¬ MAX_DEPTH ≤ depth := not_le.mpr hd
  have key : ∀ s : IntersectService, shade s lights rayhit viewDir depth
      = localShade s.occluded lights rayhit.material (rayhit.ng.normalizedS)
          viewDir rayhit.point := by
    intro s
    rw [shade, if_neg hnd]
    simp only [if_neg hnot]
  refine ⟨key svc, ?_, fun svc' hocc => by rw [key svc', key svc, hocc]⟩
  rw [recCalls, if_neg hnd]
  simp only [if_neg hnot]

/-- Witness for C4: a non-reflective hit at depth 0 under a service that
always reports a reflective hit: `shade` still equals the local term and
issues zero recursive calls. -/
theorem shade_zero_reflectivity_local_witness :
    shade ⟨fun _ _ => false, fun _ _ => none⟩
        [.directional ⟨0, 0, -1⟩ ⟨1, 1, 1⟩]
        ⟨⟨0, 0, 0⟩, ⟨0, 1, 0⟩, ⟨⟨1, 1, 1⟩, 1, 0, 10, ⟨1, 1, 1⟩, 0⟩⟩ ⟨0, 0, 1⟩ 0
      = localShade (fun _ _ => false) [.directional ⟨0, 0, -1⟩ ⟨1, 1, 1⟩]
          ⟨⟨1, 1, 1⟩, 1, 0, 10, ⟨1, 1, 1⟩, 0⟩
          ((⟨0, 1, 0⟩ : Vector3D).normalizedS) ⟨0, 0, 1⟩ ⟨0, 0, 0⟩
    ∧ recCalls ⟨fun _ _ => false, fun _ _ => none⟩
        [.directional ⟨0, 0, -1⟩ ⟨1, 1, 1⟩]
        ⟨⟨0, 0, 0⟩, ⟨0, 1, 0⟩, ⟨⟨1, 1, 1⟩, 1, 0, 10, ⟨1, 1, 1⟩, 0⟩⟩ ⟨0, 0, 1⟩ 0 = 0 := by
  have h := shade_zero_reflectivity_local ⟨fun _ _ => false, fun _ _ => none⟩
    [.directional ⟨0, 0, -1⟩ ⟨1, 1, 1⟩]
    ⟨⟨0, 0, 0⟩, ⟨0, 1, 0⟩, ⟨⟨1, 1, 1⟩, 1, 0, 10, ⟨1, 1, 1⟩, 0⟩⟩ ⟨0, 0, 1⟩ 0
    (by norm_num) (by rw [MAX_DEPTH]; omega)
  exact ⟨h.1, h.2.1⟩

/-- C10: both light variants report attenuation 1 at every point, and a
per-light `shade` contribution depends on the hit point only through the
light's reported direction: two points with the same unit direction to the
light receive equal contributions, regardless of their distance from it. -/
theorem shadeContribution_distance_independent (light : SceneLight)
    (p₁ p₂ : Vector3D) (mat : SceneMaterial) (n v : Vector3D)
    (hdir : light.getDirection p₁ = light.getDirection p₂) :
    light.getAttenuation p₁ = 1 ∧ light.getAttenuation p₂ = 1
    ∧ shadeLightContribution mat n v p₁ light = shadeLightContribution mat n v p₂ light := by
  have hatt : ∀ p, light.getAttenuation p = 1 := by
    intro p
    cases light <;> rfl
  refine ⟨hatt p₁, hatt p₂, ?_⟩
  rw [shadeLightContribution, shadeLightContribution, hdir, hatt p₁, hatt p₂]

/-- Witness for C10: a directional light reports the same direction at the
origin and at a point five units away, so both points receive the same
contribution and attenuation 1. -/
theorem shadeContribution_distance_independent_witness :
    (SceneLight.directional ⟨0, 0, -1⟩ ⟨1, 1, 1⟩).getAttenuation ⟨0, 0, 0⟩ = 1
    ∧ (SceneLight.directional ⟨0, 0, -1⟩ ⟨1, 1, 1⟩).getAttenuation ⟨0, 0, 5⟩ = 1
    ∧ shadeLightContribution ⟨⟨1, 1, 1⟩, 1, 1, 10, ⟨1, 1, 1⟩, 0⟩ ⟨0, 1, 0⟩ ⟨0, 0, 1⟩
        ⟨0, 0, 0⟩ (SceneLight.directional ⟨0, 0, -1⟩ ⟨1, 1, 1⟩)
      = shadeLightContribution ⟨⟨1, 1, 1⟩, 1, 1, 10, ⟨1, 1, 1⟩, 0⟩ ⟨0, 1, 0⟩ ⟨0, 0, 1⟩
        ⟨0, 0, 5⟩ (SceneLight.directional ⟨0, 0, -1⟩ ⟨1, 1, 1⟩) :=
  shadeContribution_distance_independent (SceneLight.directional ⟨0, 0, -1⟩ ⟨1, 1, 1⟩)
    ⟨0, 0, 0⟩ ⟨0, 0, 5⟩ ⟨⟨1, 1, 1⟩, 1, 1, 10, ⟨1, 1, 1⟩, 0⟩ ⟨0, 1, 0⟩ ⟨0, 0, 1⟩ rfl

/-- C9: the viewer-facing normal flip in `calculateBrightness` reaches only
the specular factor `max 0 (h·N) ^ exponent`: with the specular coefficient
zero, the result coincides with `brightnessGivenN` at an arbitrary normal
`N'`, so the accumulated per-light irradiance values (computed by
`calculateIllumination`, which recomputes the unflipped face normal
internally) are identical whether or not the outer normal was flipped. -/
theorem brightness_flip_only_specular (lights : List Light) (P0 P1 P2 : Vector3D)
    (x y : ℝ) (viewDir : Vector3D) (material : Material) (N' : Vector3D)
    (hspec : material.specular = 0) :
    calculateBrightness lights P0 P1 P2 x y viewDir material
      = brightnessGivenN lights P0 P1 P2 x y viewDir material N' := by
  simp only [calculateBrightness, brightnessGivenN, hspec, zero_mul, add_zero]

/-- Witness for C9: a single-light scene over the standard triangle with a
specular-free material evaluates identically through `calculateBrightness`
and through `brightnessGivenN` at the unrelated normal (1,0,0). -/
theorem brightness_flip_only_specular_witness :
    calculateBrightness [⟨⟨0, 0, 1⟩, ⟨0, 0, -1⟩, ⟨4, 4, 4⟩⟩]
        ⟨0, 0, 0⟩ ⟨1, 0, 0⟩ ⟨0, 1, 0⟩ 0 0 ⟨0, 0, 2⟩ ⟨⟨1, 1, 1⟩, 1, 0, 10⟩
      = brightnessGivenN [⟨⟨0, 0, 1⟩, ⟨0, 0, -1⟩, ⟨4, 4, 4⟩⟩]
          ⟨0, 0, 0⟩ ⟨1, 0, 0⟩ ⟨0, 1, 0⟩ 0 0 ⟨0, 0, 2⟩ ⟨⟨1, 1, 1⟩, 1, 0, 10⟩ ⟨1, 0, 0⟩ :=
  brightness_flip_only_specular [⟨⟨0, 0, 1⟩, ⟨0, 0, -1⟩, ⟨4, 4, 4⟩⟩]
    ⟨0, 0, 0⟩ ⟨1, 0, 0⟩ ⟨0, 1, 0⟩ 0 0 ⟨0, 0, 2⟩ ⟨⟨1, 1, 1⟩, 1, 0, 10⟩ ⟨1, 0, 0⟩
    (by norm_num)

end ImageProc
